import Mathlib

/-!
Verification of the process-injection orchestration and artifact-recovery
pipeline of the WRFrontiers-Exporter repository.

The embedding below translates the relevant Python functions of
`src/utils.py` and `src/mapper/get_mapper.py` into executable Lean
definitions.  Filesystem state is modelled as a tree of named entries,
Python exceptions as a record carrying the exception class name and the
message, and the orchestrator `main` as a function from explicit inputs
(options, world state, run outcomes) to a result together with the list of
side effects it performed, in program order.
-/

namespace WRFExporter

/-! ### Python-style string primitives (over `List Char`) -/

/-- Lower-case a Python string (`str.lower()`), modelled on `List Char`. -/
def pyLower (s : List Char) : List Char :=
  s.map Char.toLower

/-- Boolean prefix test on character lists. -/
def isPrefixB : List Char → List Char → Bool
  | [], _ => true
  | _ :: _, [] => false
  | a :: as, b :: bs => a = b && isPrefixB as bs

/-- Boolean substring test: Python `pat in s`. -/
def isInfixB (pat : List Char) : List Char → Bool
  | [] => isPrefixB pat []
  | c :: rest => isPrefixB pat (c :: rest) || isInfixB pat rest

/-- Auxiliary worker for `pySplitWs`: `cur` is the reversed chunk read so far. -/
def splitWsAux : List Char → List Char → List (List Char)
  | [], cur => if cur.isEmpty then [] else [cur.reverse]
  | c :: rest, cur =>
    if c.isWhitespace then
      if cur.isEmpty then splitWsAux rest [] else cur.reverse :: splitWsAux rest []
    else
      splitWsAux rest (c :: cur)

/-- Python `str.split()` with no argument: split on runs of whitespace,
dropping empty chunks. -/
def pySplitWs (s : List Char) : List (List Char) :=
  splitWsAux s []

/-- Worker for `replaceDrop`, structurally recursive on a fuel bound that
starts at the length of the scanned string (a non-empty pattern consumes at
least one character per step, so the fuel never runs out). -/
def replaceDropFuel (pat : List Char) : Nat → List Char → List Char
  | 0, s => s
  | _ + 1, [] => []
  | fuel + 1, c :: rest =>
    if !pat.isEmpty && isPrefixB pat (c :: rest) then
      replaceDropFuel pat fuel ((c :: rest).drop pat.length)
    else
      c :: replaceDropFuel pat fuel rest

/-- Python `str.replace(pat, "")` for a non-empty pattern: delete every
non-overlapping occurrence of `pat`, scanning left to right. -/
def replaceDrop (pat s : List Char) : List Char :=
  replaceDropFuel pat s.length s

/-- Python `str.isdigit()` restricted to ASCII digits: non-empty and all
characters are digits. -/
def pyIsDigit (s : List Char) : Bool :=
  !s.isEmpty && s.all Char.isDigit

/-- Parse a digit string into a natural number (Python `int(...)` on a
string that passed `isdigit`). -/
def natOfDigits (ds : List Char) : Nat :=
  ds.foldl (fun acc c => acc * 10 + (c.toNat - 48)) 0

/-- Render a natural number as its decimal digit characters
(Python `str(pid)`). -/
def digitsOfNat (n : Nat) : List Char :=
  (toString n).toList

/-- `os.path.join` restricted to relative second components, as used by the
pipeline (the separator is written `/` uniformly in the model). -/
def pathJoin (a b : String) : String :=
  a ++ "/" ++ b

/-! ### Filesystem model

A filesystem node is a file or a directory holding a list of named child
nodes; directory listings (`os.listdir`) return the child names in list
order.  Real directories never hold two children with one name; the
well-formedness predicate `FsNode.wfB` records that. -/

inductive FsNode where
  | file : FsNode
  | dir : List (String × FsNode) → FsNode

/-- `os.path.isdir` on a node. -/
def FsNode.isDir : FsNode → Bool
  | .dir _ => true
  | .file => false

/-- First entry of a directory listing with the given name (filesystem
lookup; names are unique in a well-formed directory). -/
def lookupEntry (k : String) : List (String × FsNode) → Option FsNode
  | [] => none
  | (k0, v) :: rest => if k0 = k then some v else lookupEntry k rest

/-- `os.listdir`: the names of the entries, in listing order. -/
def listdir (es : List (String × FsNode)) : List String :=
  es.map Prod.fst

/-- Distinct child names in one directory listing. -/
def nodupKeys (es : List (String × FsNode)) : Bool :=
  decide (es.map Prod.fst).Nodup

/-- Well-formedness of an output-directory listing to the depth the
locator inspects it: distinct names at the top level, inside every
bundle directory, and inside every nested directory (such as `Mappings`).
Real filesystems satisfy this at every depth. -/
def wfBundleDir (es : List (String × FsNode)) : Bool :=
  nodupKeys es &&
    es.all fun p =>
      match p.2 with
      | .file => true
      | .dir sub =>
        nodupKeys sub &&
          sub.all fun q =>
            match q.2 with
            | .file => true
            | .dir ms => nodupKeys ms

/-! ### `utils.clear_dir`

```python
def clear_dir(dir_path):
    for item in os.listdir(dir_path):
        item_path = os.path.join(dir_path, item)
        if os.path.isdir(item_path):
            shutil.rmtree(item_path)
        else:
            os.remove(item_path)
```

Both branches delete the entry named `item` from the directory (a tree for
`rmtree`, a single file for `remove`); the directory itself is kept. -/

/-- Delete the entry (file or subtree) with the given name. -/
def removeEntry (es : List (String × FsNode)) (item : String) :
    List (String × FsNode) :=
  es.filter fun p => p.1 ≠ item

/-- `utils.clear_dir`, acting on the listing of the cleared directory. -/
def clear_dir (es : List (String × FsNode)) : List (String × FsNode) :=
  (listdir es).foldl
    (fun acc item =>
      if ((lookupEntry item acc).map FsNode.isDir).getD false then
        removeEntry acc item
      else
        removeEntry acc item)
    es

/-! ### Python exceptions

Every raise site of the pipeline raises a Python exception; the model
records the exception class name and the message. -/

structure PyError where
  pyType : String
  msg : String
deriving DecidableEq, Repr

/-! ### `get_mapper.get_mapper_from_sdk` (the artifact locator)

Direct transcription of the source.  `dumper7_output_dir` is the path
string used to compose messages and the returned path; `es` is the listing
of that directory.  `os.listdir` applied to a file raises
`NotADirectoryError`, which the source does not catch. -/

/-- Join names with a comma, for the multiple-files message. -/
def joinComma (names : List String) : String :=
  String.intercalate ", " names

def get_mapper_from_sdk (dumper7_output_dir : String)
    (es : List (String × FsNode)) : Except PyError String :=
  let sdk_dirs :=
    (listdir es).filter fun d =>
      ((lookupEntry d es).map FsNode.isDir).getD false
  match sdk_dirs with
  | [d0] =>
    let mapper_dir := pathJoin (pathJoin dumper7_output_dir d0) "Mappings"
    match lookupEntry d0 es with
    | some (.dir sub) =>
      match lookupEntry "Mappings" sub with
      | none =>
        .error ⟨"Exception", "Mappings directory not found: " ++ mapper_dir⟩
      | some .file =>
        -- os.path.exists succeeds on the file, then os.listdir raises
        .error ⟨"NotADirectoryError", mapper_dir⟩
      | some (.dir ms) =>
        let mapper_files :=
          (listdir ms).filter fun f =>
            !(((lookupEntry f ms).map FsNode.isDir).getD true)
        match mapper_files with
        | [] =>
          .error ⟨"Exception", "No mapper files found in: " ++ mapper_dir⟩
        | [f0] =>
          let mapper_file_path := pathJoin mapper_dir f0
          if (lookupEntry f0 ms).isSome then
            .ok mapper_file_path
          else
            .error ⟨"Exception", "Mapper file not found: " ++ mapper_file_path⟩
        | fs =>
          .error ⟨"Exception",
            "Multiple mapper files found, expected only one: " ++ joinComma fs⟩
    | _ =>
      -- unreachable: d0 passed the isdir filter above
      .error ⟨"NotADirectoryError", pathJoin dumper7_output_dir d0⟩
  | other =>
    .error ⟨"Exception",
      "Invalid SDK directory structure: found " ++ toString other.length ++
        " directories instead of 1"⟩

/-! ### `utils.wait_for_process_by_name` — the process-table match

Transcription of the matching pass over one `tasklist` output (Windows
branch of the source).  A table listing is a list of lines, each a list of
characters. -/

/-- The pattern removed by `process_name.replace(".exe", "")`. -/
def exePat : List Char :=
  ".exe".toList

/-- Header lines of the `tasklist` output are skipped: any line whose
lower-casing contains `image name` or `=====`. -/
def isHeaderLine (line : List Char) : Bool :=
  isInfixB "image name".toList (pyLower line) ||
    isInfixB "=====".toList (pyLower line)

/-- The three tolerant comparisons of the source: the full name, the name
with every `.exe` removed, and the first 20 characters of that base name,
all case-insensitive substring tests against the line. -/
def lineMatchesName (process_name line : List Char) : Bool :=
  let line_lower := pyLower line
  let process_base_name := pyLower (replaceDrop exePat process_name)
  let process_short_name := pyLower (process_base_name.take 20)
  isInfixB (pyLower process_name) line_lower ||
    isInfixB process_base_name line_lower ||
    isInfixB process_short_name line_lower

/-- `parts = line.split(); len(parts) >= 2 and parts[1].isdigit()`:
the candidate PID field of a line, when it is numeric. -/
def linePidField (line : List Char) : Option (List Char) :=
  let parts := pySplitWs line
  if parts.length ≥ 2 && pyIsDigit (parts.getD 1 []) then
    some (parts.getD 1 [])
  else
    none

/-- One pass of `wait_for_process_by_name` over the lines of a single
`tasklist` listing: the first non-header line that passes the tolerant
name comparison and carries a numeric PID field yields that PID. -/
def tasklistFindPid (process_name : List Char) : List (List Char) → Option Nat
  | [] => none
  | line :: rest =>
    if isHeaderLine line then
      tasklistFindPid process_name rest
    else if lineMatchesName process_name line then
      match linePidField line with
      | some d => some (natOfDigits d)
      | none => tasklistFindPid process_name rest
    else
      tasklistFindPid process_name rest

/-- The timeout error of `wait_for_process_by_name`. -/
def notFoundError (process_name : String) (timeout : Nat) : PyError :=
  ⟨"Exception",
    "Process " ++ process_name ++ " not found within " ++ toString timeout ++
      " seconds"⟩

/-- `utils.wait_for_process_by_name`: poll the process table once per
5-second attempt until the deadline.  `listings` holds the successive
`tasklist` outputs observed before the deadline expires; exhausting them
is the timeout. -/
def wait_for_process_by_name (process_name : String) (timeout : Nat) :
    List (List (List Char)) → Except PyError Nat
  | [] => .error (notFoundError process_name timeout)
  | l :: rest =>
    match tasklistFindPid process_name.toList l with
    | some pid => .ok pid
    | none => wait_for_process_by_name process_name timeout rest

/-! ### `utils.wait_for_process_ready_for_injection` (the readiness gate)

```python
pid = wait_for_process_by_name(process_name, timeout=60)
check_interval = 5
for i in range(0, initialization_time, check_interval):
    time.sleep(check_interval)
    if os.name == 'nt':
        result = subprocess.run(['tasklist', '/FI', f'PID eq {pid}'], ...)
        if str(pid) not in result.stdout:
            raise Exception(died during initialization)
return pid
```

`checks i` is the stdout of the `i`-th per-PID `tasklist` query (`none`
models the `CalledProcessError` branch).  The model also returns the total
seconds slept inside the settle loop. -/

/-- Number of iterations of `range(0, initialization_time, 5)`. -/
def numChecks (initialization_time : Nat) : Nat :=
  (initialization_time + 4) / 5

/-- The process-died error of the readiness gate. -/
def diedError (process_name : String) (pid : Nat) : PyError :=
  ⟨"Exception",
    "Process " ++ process_name ++ " (PID: " ++ toString pid ++
      ") died during initialization"⟩

/-- The liveness-check-failed error of the readiness gate. -/
def checkFailedError (process_name : String) : PyError :=
  ⟨"Exception",
    "Failed to check if process " ++ process_name ++ " is still running"⟩

/-- The settle loop: `k` iterations remain, `idx` is the index of the next
liveness check, `slept` the seconds slept so far. -/
def readyLoop (process_name : String) (pid : Nat)
    (checks : Nat → Option (List Char)) :
    Nat → Nat → Nat → Except PyError Nat × Nat
  | 0, _, slept => (.ok pid, slept)
  | k + 1, idx, slept =>
    match checks idx with
    | none => (.error (checkFailedError process_name), slept + 5)
    | some out =>
      if isInfixB (digitsOfNat pid) out then
        readyLoop process_name pid checks k (idx + 1) (slept + 5)
      else
        (.error (diedError process_name pid), slept + 5)

/-- `utils.wait_for_process_ready_for_injection`: find the process, then
settle for `initialization_time` seconds in 5-second chunks, re-checking
liveness after each chunk. -/
def wait_for_process_ready_for_injection (process_name : String)
    (initialization_time : Nat) (listings : List (List (List Char)))
    (checks : Nat → Option (List Char)) : Except PyError Nat × Nat :=
  match wait_for_process_by_name process_name 60 listings with
  | .error e => (.error e, 0)
  | .ok pid =>
    readyLoop process_name pid checks (numChecks initialization_time) 0 0

/-! ### `utils.terminate_process_object` / `utils.terminate_process_by_name` -/

/-- Kill actions actually performed on the OS. -/
inductive KillAct where
  | terminateCall : KillAct
  | killCall : KillAct
  | taskkill : String → KillAct
deriving DecidableEq, Repr

/-- A `subprocess.Popen` handle as the terminator sees it:
`pollResult` is `none` while the process runs, the exit code after it has
exited; the two flags select the exceptional paths of the source. -/
structure ProcHandle where
  pollResult : Option Int
  terminateRaises : Bool
  waitTimesOut : Bool

/-- `utils.terminate_process_object`: graceful terminate with a 10 s wait,
escalating to kill; an already-exited process falls through to the final
`return False` with no kill action. -/
def terminate_process_object (process : ProcHandle) : Bool × List KillAct :=
  if process.pollResult = none then
    if process.terminateRaises then
      (false, [])
    else if process.waitTimesOut then
      (true, [KillAct.terminateCall, KillAct.killCall])
    else
      (true, [KillAct.terminateCall])
  else
    (false, [])

/-- Rows of the OS process table matching an image name exactly, as
`taskkill /F /IM name` selects them. -/
def taskkillMatches (table : List String) (process_name : String) : Nat :=
  (table.filter fun r => r = process_name).length

/-- `utils.terminate_process_by_name` (Windows branch): run
`taskkill /F /IM name`; the external tool kills every matching row and
returns exit code 0 exactly when at least one row matched, which the
source maps to the boolean result.  Second component: processes killed. -/
def terminate_process_by_name (table : List String) (process_name : String) :
    Bool × Nat :=
  let killed := taskkillMatches table process_name
  if killed > 0 then (true, killed) else (false, 0)

/-! ### `get_mapper.main` (the injection orchestrator)

`main` is modelled as a function of the options, the pre-run world state
and the outcomes supplied by the run environment, returning the pipeline
result together with the list of side effects in program order. -/

structure Options where
  output_mapper_file : String
  force_get_mapper : Bool
  steam_game_download_dir : String
  dumper7_output_dir : String

structure World where
  output_mapper_file_exists : Bool
  shipping_exe_exists : Bool
  dll_path : String
  dll_exists : Bool
  is_admin : Bool
  dumperEntries : List (String × FsNode)

/-- Outcomes of the external interactions of one run: whether the launched
process survived the 2-second grace window (and its exit code when not),
the `tasklist` outputs driving the waiter and the readiness gate, the
reported injection outcome, and the entries the injected module wrote into
the cleared output directory by the time the locator runs. -/
structure RunEnv where
  launch_ok : Bool
  launch_exit_code : Int
  listings : List (List (List Char))
  checks : Nat → Option (List Char)
  inject_reported : Bool
  bundleWrites : List (String × FsNode)

inductive Effect where
  | clearOutputDir : String → Effect
  | launch : String → Effect
  | inject : String → String → Effect
  | terminate : String → Effect
  | makedirs : String → Effect
  | copy : String → String → Effect
deriving DecidableEq, Repr

/-- Modelled from the spec: `mapper/simple_injector.inject_dll_into_process`
is imported by `get_mapper.py` but its source file is not under `src/`.
Spec §4.3 describes it as a pure pass-through to the black-box injection
capability returning a boolean outcome (ReportedSuccess/ReportedFailure)
that is a hint, not ground truth; the model therefore takes that boolean
from the run environment unchanged. -/
def inject_dll_into_process (reported : Bool) : Bool :=
  reported

/-- Relative path of the shipping executable under the Steam download
directory, as hard-coded in `main`. -/
def shippingRel : String :=
  "13_2017027/WRFrontiers/Binaries/Win64/WRFrontiers-Win64-Shipping.exe"

/-- `os.path.basename` for the slash-separated paths used here: the
characters after the last separator. -/
def pyBasename (p : String) : String :=
  String.mk ((p.toList.reverse.takeWhile fun c => c ≠ '/').reverse)

/-- `os.path.dirname` for the slash-separated paths used here: the
characters before the last separator (empty when there is none). -/
def pyDirname (p : String) : String :=
  match p.toList.reverse.dropWhile fun c => c ≠ '/' with
  | [] => ""
  | _ :: rest => String.mk rest.reverse

/-- `get_mapper.perform_dll_injection`: readiness gate (settle 10 s), then
the injection call. -/
def perform_dll_injection (game_process_name : String) (env : RunEnv) :
    Except PyError Bool :=
  match (wait_for_process_ready_for_injection game_process_name 10
      env.listings env.checks).1 with
  | .error e => .error e
  | .ok _ => .ok (inject_dll_into_process env.inject_reported)

/-- The tail of `main`: ensure the destination parent directory exists and
copy the located mapper file onto `output_mapper_file`. -/
def publishStep (o : Options) (mapping_file_path : String)
    (effs : List Effect) : Except PyError String × List Effect :=
  (.ok o.output_mapper_file,
    effs ++ [Effect.makedirs (pyDirname o.output_mapper_file),
      Effect.copy mapping_file_path o.output_mapper_file])

/-- `get_mapper.main`.  Note on the recovery branch: the handler calls
`get_mapper_from_sdk`, which raises on failure and never returns `None`;
a locator error therefore propagates out of the handler, and the
`if mapping_file_path is None: raise e` line below it is unreachable. -/
def mainRun (o : Options) (w : World) (env : RunEnv) :
    Except PyError String × List Effect :=
  if w.output_mapper_file_exists && !o.force_get_mapper then
    (.ok o.output_mapper_file, [])
  else
    let shipping_cmd_path := pathJoin o.steam_game_download_dir shippingRel
    if !w.shipping_exe_exists then
      (.error ⟨"ValueError",
        "Shipping executable not found at: " ++ shipping_cmd_path ++
          ". Please ensure the game is downloaded to " ++
          o.steam_game_download_dir⟩, [])
    else
      let game_process_name := pyBasename shipping_cmd_path
      let cleared := clear_dir w.dumperEntries
      let effs1 := [Effect.clearOutputDir o.dumper7_output_dir]
      if !w.dll_exists then
        (.error ⟨"Exception", "DLL file not found: " ++ w.dll_path⟩, effs1)
      else
        let effs2 := effs1 ++ [Effect.launch shipping_cmd_path]
        if !env.launch_ok then
          (.error ⟨"Exception",
            "Game process failed to start (exit code: " ++
              toString env.launch_exit_code ++ ")"⟩, effs2)
        else
          let postEntries := cleared ++ env.bundleWrites
          let tryPhase : Except PyError Unit × List Effect :=
            match perform_dll_injection game_process_name env with
            | .error e => (.error e, [])
            | .ok true => (.ok (), [Effect.inject game_process_name w.dll_path])
            | .ok false =>
              (.error ⟨"Exception", "DLL injection failed"⟩,
                [Effect.inject game_process_name w.dll_path])
          match tryPhase with
          | (.error _e, tryEffs) =>
            -- except-branch: terminate, then consult the locator; a locator
            -- error propagates unchanged (the re-raise of _e is dead code)
            let effs3 := effs2 ++ tryEffs ++ [Effect.terminate game_process_name]
            match get_mapper_from_sdk o.dumper7_output_dir postEntries with
            | .error e2 => (.error e2, effs3)
            | .ok mapping_file_path => publishStep o mapping_file_path effs3
          | (.ok _, tryEffs) =>
            let effs3 := effs2 ++ tryEffs ++ [Effect.terminate game_process_name]
            match get_mapper_from_sdk o.dumper7_output_dir postEntries with
            | .error e2 => (.error e2, effs3)
            | .ok mapping_file_path => publishStep o mapping_file_path effs3

/-! ## Spec-side definitions and claim verification -/

/-- Claim-side characterization of the table match (amended C5): the first
line that is not a header, passes the three tolerant comparisons, and
carries a numeric PID in its second whitespace-separated field yields that
parsed PID; when no such line exists there is no match. -/
def specFirstNumericMatch (process_name : List Char)
    (lines : List (List Char)) : Option Nat :=
  match lines.find? (fun line =>
      !isHeaderLine line && lineMatchesName process_name line &&
        (linePidField line).isSome) with
  | some line => (linePidField line).map natOfDigits
  | none => none

theorem tasklistFindPid_eq_spec (process_name : List Char)
    (lines : List (List Char)) :
    tasklistFindPid process_name lines =
      specFirstNumericMatch process_name lines := by
  induction lines with
  | nil => rfl
  | cons line rest ih =>
    by_cases hh : isHeaderLine line
    · simp [tasklistFindPid, specFirstNumericMatch, List.find?_cons, hh, ih]
    · by_cases hm : lineMatchesName process_name line
      · cases hp : linePidField line with
        | some d =>
          simp [tasklistFindPid, specFirstNumericMatch, List.find?_cons,
            hh, hm, hp]
        | none =>
          simp [tasklistFindPid, specFirstNumericMatch, List.find?_cons,
            hh, hm, hp, ih]
      · simp [tasklistFindPid, specFirstNumericMatch, List.find?_cons,
          hh, hm, ih]

/-! Concrete table for the C5 counterexample: the first non-header line
passing the tolerant comparison (a truncated name) has no numeric second
field, so the source skips it and takes the PID from a later line. -/

def c5name : List Char :=
  "WRFrontiers-Win64-Shipping.exe".toList

def c5rowHeaderA : List Char :=
  "Image Name                     PID Session Name".toList

def c5rowHeaderB : List Char :=
  "========================= ======== ============".toList

def c5rowTrunc : List Char :=
  "wrfrontiers-win64-ship notapid".toList

def c5rowFull : List Char :=
  "WRFrontiers-Win64-Shipping.exe 1234 Console".toList

def c5lines : List (List Char) :=
  [c5rowHeaderA, c5rowHeaderB, c5rowTrunc, c5rowFull]

/-- C5 counterexample: in `c5lines`, the first non-header row whose text
passes the three tolerant comparisons is `c5rowTrunc` (both earlier rows
are headers), yet the function returns PID 1234, which is not taken from
that row — its second whitespace field is the non-numeric `notapid`, so
the claim that the match is produced by, and the PID taken from, the first
textually matching row is false on the source. -/
theorem c5_counterexample :
    isHeaderLine c5rowHeaderA = true ∧
    isHeaderLine c5rowHeaderB = true ∧
    isHeaderLine c5rowTrunc = false ∧
    lineMatchesName c5name c5rowTrunc = true ∧
    pySplitWs c5rowTrunc =
      ["wrfrontiers-win64-ship".toList, "notapid".toList] ∧
    linePidField c5rowTrunc = none ∧
    tasklistFindPid c5name c5lines = some 1234 := by
  decide

/-- C5 (amended): for every process-table listing, the matching pass of
`wait_for_process_by_name` returns a match exactly for the first
non-header row that both passes one of the three case-insensitive
comparisons (full name, name with the executable suffix removed, or the
20-character prefix of that base name) and has a numeric second
whitespace-separated field; rows failing all three comparisons never
produce a match, and the PID returned is parsed from that row. -/
theorem c5_first_match_characterization (process_name : String)
    (timeout : Nat) (lines : List (List Char)) :
    tasklistFindPid process_name.toList lines =
      specFirstNumericMatch process_name.toList lines ∧
    wait_for_process_by_name process_name timeout [lines] =
      (match specFirstNumericMatch process_name.toList lines with
        | some pid => .ok pid
        | none => .error (notFoundError process_name timeout)) := by
  refine ⟨tasklistFindPid_eq_spec _ _, ?_⟩
  rw [wait_for_process_by_name, tasklistFindPid_eq_spec]
  cases specFirstNumericMatch process_name.toList lines with
  | some pid => rfl
  | none => rfl

/-! ### Claim-side views of a directory listing -/

/-- The entries of a listing that are directories (the bundle candidates). -/
def dirEntriesOf (es : List (String × FsNode)) : List (String × FsNode) :=
  es.filter fun p => p.2.isDir

/-- The entries of a listing that are plain files. -/
def fileEntriesOf (es : List (String × FsNode)) : List (String × FsNode) :=
  es.filter fun p => !p.2.isDir

/-! ### `clear_dir` empties the directory -/

theorem clear_dir_eq_foldl (es : List (String × FsNode)) :
    clear_dir es = (listdir es).foldl removeEntry es := by
  simp [clear_dir, ite_self]

theorem foldl_removeEntry_nil (names : List String) :
    ∀ es : List (String × FsNode), (∀ p ∈ es, p.1 ∈ names) →
      names.foldl removeEntry es = [] := by
  induction names with
  | nil =>
    intro es h
    cases es with
    | nil => rfl
    | cons p rest => exact absurd (h p (List.mem_cons_self _ _)) (List.not_mem_nil _)
  | cons n ns ih =>
    intro es h
    rw [List.foldl_cons]
    apply ih
    intro p hp
    have hmem : p ∈ es := List.mem_of_mem_filter hp
    have hne : p.1 ≠ n := by
      have := List.of_mem_filter hp
      simpa using this
    rcases List.mem_cons.mp (h p hmem) with h1 | h2
    · exact absurd h1 hne
    · exact h2

/-- Every entry of the cleared directory is removed. -/
theorem clear_dir_nil (es : List (String × FsNode)) : clear_dir es = [] := by
  rw [clear_dir_eq_foldl]
  exact foldl_removeEntry_nil (listdir es) es fun p hp =>
    List.mem_map_of_mem Prod.fst hp

/-- C6: `clear_dir` removes every file and every subdirectory directly
under the directory while the directory itself persists (as an empty
directory node), and since `main` invokes the locator on the cleared
listing plus whatever the injected module wrote
(`clear_dir w.dumperEntries ++ env.bundleWrites` in `mainRun`), the output
directory holds at most one bundle directory at verification time whenever
the run wrote at most one. -/
theorem c6_clear_dir_invariant (es writes : List (String × FsNode))
    (hw : (dirEntriesOf writes).length ≤ 1) :
    clear_dir es = [] ∧
    (FsNode.dir (clear_dir es)).isDir = true ∧
    (dirEntriesOf (clear_dir es ++ writes)).length ≤ 1 := by
  refine ⟨clear_dir_nil es, rfl, ?_⟩
  rw [clear_dir_nil es, List.nil_append]
  exact hw

def c6es : List (String × FsNode) :=
  [("stale.txt", .file), ("OldSDK", .dir [("Mappings", .dir [])])]

def c6writes : List (String × FsNode) :=
  [("NewSDK", .dir [("Mappings", .dir [("m.usmap", .file)])])]

theorem c6_witness :
    clear_dir c6es = [] ∧
    (dirEntriesOf (clear_dir c6es ++ c6writes)).length ≤ 1 := by
  have h := c6_clear_dir_invariant c6es c6writes (by decide)
  exact ⟨h.1, h.2.2⟩

/-! ### C3: existing destination short-circuits the pipeline -/

/-- C3: when the destination file already exists and the force flag is
false, `main` returns the destination path immediately with no side
effects at all — no clearing, no launch, no injection, no termination, no
copy; the run environment is irrelevant, so a second call under the same
condition returns the same path again. -/
theorem c3_existing_file_short_circuits (o : Options) (w : World)
    (env envSecond : RunEnv)
    (hex : w.output_mapper_file_exists = true)
    (hforce : o.force_get_mapper = false) :
    mainRun o w env = (.ok o.output_mapper_file, []) ∧
    mainRun o w envSecond = (.ok o.output_mapper_file, []) := by
  constructor <;> simp [mainRun, hex, hforce]

def c3opts : Options :=
  { output_mapper_file := "/out/m.usmap", force_get_mapper := false,
    steam_game_download_dir := "/steam", dumper7_output_dir := "/dump" }

def c3world : World :=
  { output_mapper_file_exists := true, shipping_exe_exists := true,
    dll_path := "/dll", dll_exists := true, is_admin := false,
    dumperEntries := [("stale", .dir [])] }

def c3env : RunEnv :=
  { launch_ok := true, launch_exit_code := 0, listings := [],
    checks := fun _ => none, inject_reported := false, bundleWrites := [] }

theorem c3_witness :
    mainRun c3opts c3world c3env = (.ok "/out/m.usmap", []) :=
  (c3_existing_file_short_circuits c3opts c3world c3env c3env rfl rfl).1

/-! ### Lookup and listing lemmas (well-formed directories) -/

theorem mem_of_lookupEntry {k : String} {v : FsNode} :
    ∀ {es : List (String × FsNode)}, lookupEntry k es = some v → (k, v) ∈ es := by
  intro es
  induction es with
  | nil => intro h; simp [lookupEntry] at h
  | cons q rest ih =>
    intro h
    obtain ⟨k0, v0⟩ := q
    rw [lookupEntry] at h
    by_cases hk : k0 = k
    · rw [if_pos hk] at h
      injection h with hv
      subst hk
      subst hv
      exact List.mem_cons_self _ _
    · rw [if_neg hk] at h
      exact List.mem_cons_of_mem _ (ih h)

theorem lookupEntry_eq_some_of_mem {k : String} {v : FsNode} :
    ∀ {es : List (String × FsNode)}, (es.map Prod.fst).Nodup →
      (k, v) ∈ es → lookupEntry k es = some v := by
  intro es
  induction es with
  | nil => intro _ hm; simp at hm
  | cons q rest ih =>
    intro hnd hm
    obtain ⟨k0, v0⟩ := q
    rw [List.map_cons, List.nodup_cons] at hnd
    rcases List.mem_cons.mp hm with h1 | h2
    · cases h1
      rw [lookupEntry, if_pos rfl]
    · have hkmem : (k, v).1 ∈ List.map Prod.fst rest :=
        List.mem_map_of_mem Prod.fst h2
      have hk : k0 ≠ k := by
        intro he
        apply hnd.1
        rw [he]
        exact hkmem
      rw [lookupEntry, if_neg hk]
      exact ih hnd.2 h2

/-- A lookup-mediated filter over the listing names equals the name list of
the entry-level filter, provided names are unique. -/
theorem listdir_filter_lookup (g : Option FsNode → Bool) (q : FsNode → Bool)
    (hg : ∀ v, g (some v) = q v) :
    ∀ es : List (String × FsNode), (es.map Prod.fst).Nodup →
      (listdir es).filter (fun d => g (lookupEntry d es)) =
        (es.filter fun p => q p.2).map Prod.fst := by
  intro es
  induction es with
  | nil => intro _; rfl
  | cons e rest ih =>
    intro hnd
    obtain ⟨k0, v0⟩ := e
    rw [List.map_cons, List.nodup_cons] at hnd
    have hstep :
        (listdir rest).filter
            (fun d => g (lookupEntry d ((k0, v0) :: rest))) =
          (listdir rest).filter (fun d => g (lookupEntry d rest)) := by
      apply List.filter_congr
      intro d hd
      have hk : k0 ≠ d := fun he => hnd.1 (he ▸ hd)
      rw [lookupEntry, if_neg hk]
    have hhead : g (lookupEntry k0 ((k0, v0) :: rest)) = q v0 := by
      rw [lookupEntry, if_pos rfl, hg]
    have hrec := ih hnd.2
    by_cases hq : q v0 = true
    · simp only [listdir, List.map_cons, List.filter_cons, hhead, hq,
        if_true, List.cons.injEq]
      simp only [listdir] at hstep hrec
      rw [hstep, hrec]
      simp
    · have hq2 : q v0 = false := by
        cases hqv : q v0
        · rfl
        · exact absurd hqv hq
      simp only [listdir, List.map_cons, List.filter_cons, hhead, hq2]
      simp only [listdir] at hstep hrec
      rw [hstep, hrec]
      simp

theorem sdkDirs_eq (es : List (String × FsNode))
    (hnd : (es.map Prod.fst).Nodup) :
    ((listdir es).filter fun d =>
        ((lookupEntry d es).map FsNode.isDir).getD false) =
      (dirEntriesOf es).map Prod.fst := by
  have := listdir_filter_lookup
    (fun o => (o.map FsNode.isDir).getD false) FsNode.isDir
    (fun v => rfl) es hnd
  simpa [dirEntriesOf] using this

theorem mapperFiles_eq (ms : List (String × FsNode))
    (hnd : (ms.map Prod.fst).Nodup) :
    ((listdir ms).filter fun f =>
        !(((lookupEntry f ms).map FsNode.isDir).getD true)) =
      (fileEntriesOf ms).map Prod.fst := by
  have := listdir_filter_lookup
    (fun o => !((o.map FsNode.isDir).getD true)) (fun v => !v.isDir)
    (fun v => rfl) ms hnd
  simpa [fileEntriesOf] using this

theorem wfBundleDir_spec {es : List (String × FsNode)}
    (h : wfBundleDir es = true) :
    (es.map Prod.fst).Nodup ∧
      ∀ k sub, (k, FsNode.dir sub) ∈ es →
        (sub.map Prod.fst).Nodup ∧
          ∀ k2 ms, (k2, FsNode.dir ms) ∈ sub → (ms.map Prod.fst).Nodup := by
  unfold wfBundleDir nodupKeys at h
  rw [Bool.and_eq_true, List.all_eq_true] at h
  refine ⟨by simpa using h.1, ?_⟩
  intro k sub hmem
  have h2 := h.2 _ hmem
  simp only [Bool.and_eq_true, List.all_eq_true, decide_eq_true_eq] at h2
  refine ⟨h2.1, ?_⟩
  intro k2 ms hmem2
  have h3 := h2.2 _ hmem2
  simpa using h3

/-! ### C4: the locator returns exactly the single well-formed bundle -/

/-- Claim-side bundle structure: the output directory contains exactly one
subdirectory `d`, `d` contains a subdirectory named `Mappings`, and that
`Mappings` directory contains exactly one file `f` (entries that are
subdirectories are ignored at the file level). -/
def goodBundle (es : List (String × FsNode)) (d f : String) : Prop :=
  ∃ sub ms,
    dirEntriesOf es = [(d, FsNode.dir sub)] ∧
    ("Mappings", FsNode.dir ms) ∈ sub ∧
    fileEntriesOf ms = [(f, FsNode.file)]

/-- On a listing with unique names, a good bundle determines the lookup
results the locator computes. -/
theorem goodBundle_lookup {es : List (String × FsNode)} {d f : String}
    (hsubnd : ∀ k sub, (k, FsNode.dir sub) ∈ es → (sub.map Prod.fst).Nodup)
    (hgb : goodBundle es d f) :
    ∃ sub ms, dirEntriesOf es = [(d, FsNode.dir sub)] ∧
      lookupEntry "Mappings" sub = some (FsNode.dir ms) ∧
      fileEntriesOf ms = [(f, FsNode.file)] := by
  obtain ⟨sub, ms, hde, hmemM, hfe⟩ := hgb
  have hmemes : (d, FsNode.dir sub) ∈ es := by
    apply List.mem_of_mem_filter
    show (d, FsNode.dir sub) ∈ dirEntriesOf es
    rw [hde]
    exact List.mem_cons_self _ _
  exact ⟨sub, ms, hde,
    lookupEntry_eq_some_of_mem (hsubnd d sub hmemes) hmemM, hfe⟩

/-- Core locator characterization: on a well-formed listing,
`get_mapper_from_sdk` succeeds exactly on a good bundle and returns the
composed path. -/
theorem getMapper_ok_iff (root : String) (es : List (String × FsNode))
    (hwf : wfBundleDir es = true) (p : String) :
    get_mapper_from_sdk root es = .ok p ↔
      ∃ d f, goodBundle es d f ∧
        p = pathJoin (pathJoin (pathJoin root d) "Mappings") f := by
  obtain ⟨hnd, hsub⟩ := wfBundleDir_spec hwf
  have hsubnd : ∀ k sub, (k, FsNode.dir sub) ∈ es → (sub.map Prod.fst).Nodup :=
    fun k sub hm => (hsub k sub hm).1
  simp only [get_mapper_from_sdk]
  rw [sdkDirs_eq es hnd]
  rcases hde : dirEntriesOf es with _ | ⟨⟨d0, v0⟩, _ | ⟨⟨d1, v1⟩, drest⟩⟩
  · -- zero bundle directories: the structural error, and no good bundle
    dsimp only [List.map_nil]
    constructor
    · intro h
      exact absurd h (by simp)
    · rintro ⟨d, f, hgb, -⟩
      obtain ⟨sub, ms, hde', -, -⟩ := goodBundle_lookup hsubnd hgb
      rw [hde] at hde'
      cases hde'
  · -- exactly one directory entry
    have hmem0 : (d0, v0) ∈ dirEntriesOf es := by
      rw [hde]
      exact List.mem_cons_self _ _
    have hdir0 : v0.isDir = true := by
      have := List.of_mem_filter hmem0
      simpa using this
    have hmemes : (d0, v0) ∈ es := List.mem_of_mem_filter hmem0
    cases v0 with
    | file => exact absurd hdir0 (by simp [FsNode.isDir])
    | dir sub =>
      have hlook : lookupEntry d0 es = some (.dir sub) :=
        lookupEntry_eq_some_of_mem hnd hmemes
      obtain ⟨hndsub, hsub2⟩ := hsub d0 sub hmemes
      dsimp only [List.map_cons, List.map_nil]
      rw [hlook]
      dsimp only
      rcases hm : lookupEntry "Mappings" sub with _ | v1
      · -- Mappings missing
        dsimp only
        constructor
        · intro h
          exact absurd h (by simp)
        · rintro ⟨d, f, hgb, -⟩
          obtain ⟨sub', ms', hde', hlookM', -⟩ := goodBundle_lookup hsubnd hgb
          rw [hde] at hde'
          injection hde' with hpair hnil
          injection hpair with hdeq hveq
          injection hveq with hsubeq
          rw [← hsubeq] at hlookM'
          rw [hm] at hlookM'
          cases hlookM'
      · cases v1 with
        | file =>
          -- Mappings exists but is a plain file: NotADirectoryError
          dsimp only
          constructor
          · intro h
            exact absurd h (by simp)
          · rintro ⟨d, f, hgb, -⟩
            obtain ⟨sub', ms', hde', hlookM', -⟩ := goodBundle_lookup hsubnd hgb
            rw [hde] at hde'
            injection hde' with hpair hnil
            injection hpair with hdeq hveq
            injection hveq with hsubeq
            rw [← hsubeq] at hlookM'
            rw [hm] at hlookM'
            cases hlookM'
        | dir ms =>
          have hmemM0 : ("Mappings", FsNode.dir ms) ∈ sub :=
            mem_of_lookupEntry hm
          have hndms : (ms.map Prod.fst).Nodup := hsub2 "Mappings" ms hmemM0
          dsimp only
          rw [mapperFiles_eq ms hndms]
          rcases hfe : fileEntriesOf ms with _ | ⟨⟨f0, w0⟩, _ | ⟨⟨f1, w1⟩, frest⟩⟩
          · -- zero files
            dsimp only [List.map_nil]
            constructor
            · intro h
              exact absurd h (by simp)
            · rintro ⟨d, f, hgb, -⟩
              obtain ⟨sub', ms', hde', hlookM', hfe'⟩ := goodBundle_lookup hsubnd hgb
              rw [hde] at hde'
              injection hde' with hpair hnil
              injection hpair with hdeq hveq
              injection hveq with hsubeq
              rw [← hsubeq] at hlookM'
              rw [hm] at hlookM'
              injection hlookM' with hmseq
              injection hmseq with hmseq2
              rw [← hmseq2] at hfe'
              rw [hfe] at hfe'
              cases hfe'
          · -- exactly one file
            have hmemf0 : (f0, w0) ∈ fileEntriesOf ms := by
              rw [hfe]
              exact List.mem_cons_self _ _
            have hfile0 : w0.isDir = false := by
              have := List.of_mem_filter hmemf0
              simpa using this
            have hmemms : (f0, w0) ∈ ms := List.mem_of_mem_filter hmemf0
            cases w0 with
            | dir _ => exact absurd hfile0 (by simp [FsNode.isDir])
            | file =>
              have hlookf : lookupEntry f0 ms = some FsNode.file :=
                lookupEntry_eq_some_of_mem hndms hmemms
              dsimp only [List.map_cons, List.map_nil]
              rw [hlookf]
              dsimp only [Option.isSome_some, if_true]
              constructor
              · intro h
                injection h with hp
                exact ⟨d0, f0, ⟨sub, ms, hde, hmemM0, hfe⟩, hp.symm⟩
              · rintro ⟨d, f, hgb, hp⟩
                obtain ⟨sub', ms', hde', hlookM', hfe'⟩ := goodBundle_lookup hsubnd hgb
                rw [hde] at hde'
                injection hde' with hpair hnil
                injection hpair with hdeq hveq
                injection hveq with hsubeq
                rw [← hsubeq] at hlookM'
                rw [hm] at hlookM'
                injection hlookM' with hmseq
                injection hmseq with hmseq2
                rw [← hmseq2] at hfe'
                rw [hfe] at hfe'
                injection hfe' with hfpair hfnil
                injection hfpair with hfeq hweq
                rw [hp, ← hdeq, ← hfeq]
                rfl
          · -- two or more files: the ambiguity error
            dsimp only [List.map_cons]
            constructor
            · intro h
              exact absurd h (by simp)
            · rintro ⟨d, f, hgb, -⟩
              obtain ⟨sub', ms', hde', hlookM', hfe'⟩ := goodBundle_lookup hsubnd hgb
              rw [hde] at hde'
              injection hde' with hpair hnil
              injection hpair with hdeq hveq
              injection hveq with hsubeq
              rw [← hsubeq] at hlookM'
              rw [hm] at hlookM'
              injection hlookM' with hmseq
              injection hmseq with hmseq2
              rw [← hmseq2] at hfe'
              rw [hfe] at hfe'
              cases hfe'
  · -- two or more directory entries: the structural error
    dsimp only [List.map_cons]
    constructor
    · intro h
      exact absurd h (by simp)
    · rintro ⟨d, f, hgb, -⟩
      obtain ⟨sub, ms, hde', -, -⟩ := goodBundle_lookup hsubnd hgb
      rw [hde] at hde'
      cases hde'

/-- C4: `get_mapper_from_sdk` returns the composed path
`outputDir/<d>/Mappings/<f>` if and only if the output directory contains
exactly one subdirectory `d`, `d` contains a subdirectory named
`Mappings`, and that directory contains exactly one file `f` (entries
that are subdirectories are ignored at the file level); in every other
case it raises an error and never returns a candidate path, and when the
number of bundle directories is not one the raised error embeds that
offending count in its message. -/
theorem c4_locator_exactly_one_bundle (root : String)
    (es : List (String × FsNode)) (hwf : wfBundleDir es = true) :
    (∀ p, get_mapper_from_sdk root es = .ok p ↔
        ∃ d f, goodBundle es d f ∧
          p = pathJoin (pathJoin (pathJoin root d) "Mappings") f) ∧
    ((¬ ∃ d f, goodBundle es d f) →
      ∃ e, get_mapper_from_sdk root es = .error e) ∧
    ((dirEntriesOf es).length ≠ 1 →
      get_mapper_from_sdk root es = .error ⟨"Exception",
        "Invalid SDK directory structure: found " ++
          toString (dirEntriesOf es).length ++ " directories instead of 1"⟩) := by
  refine ⟨getMapper_ok_iff root es hwf, ?_, ?_⟩
  · intro hno
    cases hres : get_mapper_from_sdk root es with
    | error e => exact ⟨e, rfl⟩
    | ok p =>
      obtain ⟨d, f, hgb, -⟩ := (getMapper_ok_iff root es hwf p).mp hres
      exact absurd ⟨d, f, hgb⟩ hno
  · intro hcount
    obtain ⟨hnd, -⟩ := wfBundleDir_spec hwf
    simp only [get_mapper_from_sdk]
    rw [sdkDirs_eq es hnd]
    rcases hde : dirEntriesOf es with _ | ⟨e1, _ | ⟨e2, drest⟩⟩
    · rfl
    · rw [hde] at hcount
      simp at hcount
    · simp [List.length_map]

def c4entries : List (String × FsNode) :=
  [("CppSDK", FsNode.dir
      [("Mappings", FsNode.dir
          [("Extra", FsNode.dir []), ("Mappings.usmap", FsNode.file)])])]

theorem c4_witness :
    wfBundleDir c4entries = true ∧
    get_mapper_from_sdk "/dump" c4entries =
      .ok "/dump/CppSDK/Mappings/Mappings.usmap" := by
  refine ⟨by decide, ?_⟩
  apply ((c4_locator_exactly_one_bundle "/dump" c4entries (by decide)).1 _).mpr
  exact ⟨"CppSDK", "Mappings.usmap",
    ⟨_, _, rfl, List.mem_cons_self _ _, rfl⟩, rfl⟩

/-! ### C1/C10: the recovery branch of `main` -/

/-- C1: in a run that reaches the injection step (destination not cached,
executable and DLL present, launch survives the grace window, readiness
gate succeeds) where the injection call reports failure but the output
directory holds exactly one subdirectory with a `Mappings` subdirectory
holding exactly one file, `main` returns the configured destination path
and performs the copy of that artifact onto it, instead of raising the
injection failure. -/
theorem c1_ambiguous_failure_recovery (o : Options) (w : World) (env : RunEnv)
    (d f : String) (pid : Nat)
    (hnotcached : w.output_mapper_file_exists = false)
    (hship : w.shipping_exe_exists = true)
    (hdll : w.dll_exists = true)
    (hlaunch : env.launch_ok = true)
    (hready : (wait_for_process_ready_for_injection
        (pyBasename (pathJoin o.steam_game_download_dir shippingRel)) 10
        env.listings env.checks).1 = .ok pid)
    (hinj : env.inject_reported = false)
    (hwf : wfBundleDir env.bundleWrites = true)
    (hgood : goodBundle env.bundleWrites d f) :
    (mainRun o w env).1 = .ok o.output_mapper_file ∧
    Effect.copy
        (pathJoin (pathJoin (pathJoin o.dumper7_output_dir d) "Mappings") f)
        o.output_mapper_file ∈ (mainRun o w env).2 := by
  have hpdi : perform_dll_injection
      (pyBasename (pathJoin o.steam_game_download_dir shippingRel)) env =
        .ok false := by
    rw [perform_dll_injection, hready]
    dsimp only [inject_dll_into_process]
    rw [hinj]
  have hloc : get_mapper_from_sdk o.dumper7_output_dir
      (clear_dir w.dumperEntries ++ env.bundleWrites) =
        .ok (pathJoin (pathJoin (pathJoin o.dumper7_output_dir d) "Mappings") f) := by
    rw [clear_dir_nil, List.nil_append]
    exact (getMapper_ok_iff _ _ hwf _).mpr ⟨d, f, hgood, rfl⟩
  have hkey : mainRun o w env =
      publishStep o
        (pathJoin (pathJoin (pathJoin o.dumper7_output_dir d) "Mappings") f)
        (([Effect.clearOutputDir o.dumper7_output_dir] ++
            [Effect.launch (pathJoin o.steam_game_download_dir shippingRel)]) ++
          [Effect.inject
              (pyBasename (pathJoin o.steam_game_download_dir shippingRel))
              w.dll_path] ++
          [Effect.terminate
              (pyBasename (pathJoin o.steam_game_download_dir shippingRel))]) := by
    simp only [mainRun, hnotcached, hship, hdll, hlaunch, hpdi, hloc,
      Bool.false_and, Bool.not_true, Bool.not_false, if_false, if_true,
      ite_false, ite_true]
    rfl
  refine ⟨?_, ?_⟩
  · rw [hkey]
    rfl
  · rw [hkey]
    simp [publishStep]

def c1bundle : List (String × FsNode) :=
  [("SDK", FsNode.dir [("Mappings", FsNode.dir [("WRF.usmap", FsNode.file)])])]

def c1opts : Options :=
  { output_mapper_file := "/out/WRF.usmap", force_get_mapper := false,
    steam_game_download_dir := "/steam", dumper7_output_dir := "/dump" }

def c1world : World :=
  { output_mapper_file_exists := false, shipping_exe_exists := true,
    dll_path := "/src/mapper/Dumper-7.dll", dll_exists := true,
    is_admin := true, dumperEntries := [("stale.txt", FsNode.file)] }

def c1env : RunEnv :=
  { launch_ok := true, launch_exit_code := 0,
    listings := [["wrfrontiers-win64-shipping.exe 4 c".toList]],
    checks := fun _ => some "4".toList, inject_reported := false,
    bundleWrites := c1bundle }

theorem c1_witness :
    (mainRun c1opts c1world c1env).1 = .ok "/out/WRF.usmap" ∧
    Effect.copy "/dump/SDK/Mappings/WRF.usmap" "/out/WRF.usmap" ∈
      (mainRun c1opts c1world c1env).2 := by
  have h := c1_ambiguous_failure_recovery c1opts c1world c1env "SDK" "WRF.usmap"
    4 rfl rfl rfl rfl rfl rfl (by decide)
    ⟨_, _, rfl, List.mem_cons_self _ _, rfl⟩
  exact h

/-! ### C2: the recovery branch masks the injection failure when the
locator fails

In the handler of `main`, `get_mapper_from_sdk` raises on failure and
never returns `None`, so its structural error propagates to the caller
and the `raise e` that would re-raise the original injection failure is
dead code.  Concrete run: injection reports failure and the output
directory is empty afterwards. -/

def c2opts : Options :=
  { output_mapper_file := "/out/WRF.usmap", force_get_mapper := false,
    steam_game_download_dir := "/steam", dumper7_output_dir := "/dump" }

def c2world : World :=
  { output_mapper_file_exists := false, shipping_exe_exists := true,
    dll_path := "/src/mapper/Dumper-7.dll", dll_exists := true,
    is_admin := true, dumperEntries := [] }

def c2env : RunEnv :=
  { launch_ok := true, launch_exit_code := 0,
    listings := [["wrfrontiers-win64-shipping.exe 4 c".toList]],
    checks := fun _ => some "4".toList, inject_reported := false,
    bundleWrites := [] }

/-- C2: with a reported injection failure and an empty output directory
after termination, the error `main` raises is the locator structural
error (`Invalid SDK directory structure: found 0 directories instead of
1`), not the original injection failure (`DLL injection failed`): the
claimed re-raise of the injection error never happens because the branch
guarding it is unreachable. -/
theorem c2_structural_error_supplants_injection_error :
    (mainRun c2opts c2world c2env).1 =
      .error ⟨"Exception",
        "Invalid SDK directory structure: found 0 directories instead of 1"⟩ ∧
    (mainRun c2opts c2world c2env).1 ≠
      .error ⟨"Exception", "DLL injection failed"⟩ := by
  have h0 : (mainRun c2opts c2world c2env).1 =
      .error ⟨"Exception",
        "Invalid SDK directory structure: found 0 directories instead of 1"⟩ := by
    rfl
  refine ⟨h0, ?_⟩
  rw [h0]
  intro h
  injection h with he
  have hmsg : ("Invalid SDK directory structure: found 0 directories instead of 1" : String) =
      "DLL injection failed" := congrArg PyError.msg he
  exact absurd hmsg (by decide)

/-- C10: every failure of the phase between launch and the injection call
— a readiness-gate error (process never appeared, or died during the
settle, or the liveness re-check failed) as well as a reported injection
failure — is caught by the recovery branch of `main`, which terminates
the process and consults the locator; when the output directory then
holds a well-formed single-file bundle, the pipeline result is success
with the destination path, and the copy is performed. -/
theorem c10_recovery_catches_all_try_errors (o : Options) (w : World)
    (env : RunEnv) (d f : String)
    (hnotcached : w.output_mapper_file_exists = false)
    (hship : w.shipping_exe_exists = true)
    (hdll : w.dll_exists = true)
    (hlaunch : env.launch_ok = true)
    (htry : (∃ e, perform_dll_injection
        (pyBasename (pathJoin o.steam_game_download_dir shippingRel)) env =
          .error e) ∨
      perform_dll_injection
        (pyBasename (pathJoin o.steam_game_download_dir shippingRel)) env =
          .ok false)
    (hwf : wfBundleDir env.bundleWrites = true)
    (hgood : goodBundle env.bundleWrites d f) :
    (mainRun o w env).1 = .ok o.output_mapper_file ∧
    Effect.terminate (pyBasename (pathJoin o.steam_game_download_dir shippingRel)) ∈
      (mainRun o w env).2 ∧
    Effect.copy
        (pathJoin (pathJoin (pathJoin o.dumper7_output_dir d) "Mappings") f)
        o.output_mapper_file ∈ (mainRun o w env).2 := by
  have hloc : get_mapper_from_sdk o.dumper7_output_dir
      (clear_dir w.dumperEntries ++ env.bundleWrites) =
        .ok (pathJoin (pathJoin (pathJoin o.dumper7_output_dir d) "Mappings") f) := by
    rw [clear_dir_nil, List.nil_append]
    exact (getMapper_ok_iff _ _ hwf _).mpr ⟨d, f, hgood, rfl⟩
  rcases htry with ⟨e, hpdi⟩ | hpdi
  · have hkey : mainRun o w env =
        publishStep o
          (pathJoin (pathJoin (pathJoin o.dumper7_output_dir d) "Mappings") f)
          (([Effect.clearOutputDir o.dumper7_output_dir] ++
              [Effect.launch (pathJoin o.steam_game_download_dir shippingRel)]) ++
            [] ++
            [Effect.terminate
                (pyBasename (pathJoin o.steam_game_download_dir shippingRel))]) := by
      simp only [mainRun, hnotcached, hship, hdll, hlaunch, hpdi, hloc,
        Bool.false_and, Bool.not_true, Bool.not_false, if_false, if_true,
        ite_false, ite_true]
      rfl
    rw [hkey]
    refine ⟨rfl, ?_, ?_⟩ <;> simp [publishStep]
  · have hkey : mainRun o w env =
        publishStep o
          (pathJoin (pathJoin (pathJoin o.dumper7_output_dir d) "Mappings") f)
          (([Effect.clearOutputDir o.dumper7_output_dir] ++
              [Effect.launch (pathJoin o.steam_game_download_dir shippingRel)]) ++
            [Effect.inject
                (pyBasename (pathJoin o.steam_game_download_dir shippingRel))
                w.dll_path] ++
            [Effect.terminate
                (pyBasename (pathJoin o.steam_game_download_dir shippingRel))]) := by
      simp only [mainRun, hnotcached, hship, hdll, hlaunch, hpdi, hloc,
        Bool.false_and, Bool.not_true, Bool.not_false, if_false, if_true,
        ite_false, ite_true]
      rfl
    rw [hkey]
    refine ⟨rfl, ?_, ?_⟩ <;> simp [publishStep]

def c10bundle : List (String × FsNode) :=
  [("Game", FsNode.dir [("Mappings", FsNode.dir [("Map.usmap", FsNode.file)])])]

def c10opts : Options :=
  { output_mapper_file := "/out/Map.usmap", force_get_mapper := false,
    steam_game_download_dir := "/steam", dumper7_output_dir := "/dump" }

def c10world : World :=
  { output_mapper_file_exists := false, shipping_exe_exists := true,
    dll_path := "/src/mapper/Dumper-7.dll", dll_exists := true,
    is_admin := false, dumperEntries := [] }

/-- In this run the process never appears: the waiter times out before
the injection call, yet the pipeline succeeds because the bundle is
present. -/
def c10env : RunEnv :=
  { launch_ok := true, launch_exit_code := 0, listings := [],
    checks := fun _ => none, inject_reported := true,
    bundleWrites := c10bundle }

theorem c10_witness :
    (mainRun c10opts c10world c10env).1 = .ok "/out/Map.usmap" ∧
    Effect.terminate "WRFrontiers-Win64-Shipping.exe" ∈
      (mainRun c10opts c10world c10env).2 := by
  have h := c10_recovery_catches_all_try_errors c10opts c10world c10env
    "Game" "Map.usmap" rfl rfl rfl rfl
    (Or.inl ⟨notFoundError "WRFrontiers-Win64-Shipping.exe" 60, rfl⟩)
    (by decide) ⟨_, _, rfl, List.mem_cons_self _ _, rfl⟩
  exact ⟨h.1, h.2.1⟩

/-! ### C7: terminating an already-exited process -/

def c7exited : ProcHandle :=
  { pollResult := some 0, terminateRaises := false, waitTimesOut := false }

/-- C7 counterexample: for a process object whose `poll()` reports an
exit code, `terminate_process_object` performs no kill action but returns
`false` (the final `return False` of the source), and for a name with no
matching row in the process table `terminate_process_by_name` kills
nothing and also returns `false` — both contradict the claim that these
calls report success (`true`). -/
theorem c7_counterexample :
    terminate_process_object c7exited = (false, []) ∧
    (terminate_process_object c7exited).1 ≠ true ∧
    terminate_process_by_name [] "WRFrontiers-Win64-Shipping.exe" = (false, 0) ∧
    (terminate_process_by_name [] "WRFrontiers-Win64-Shipping.exe").1 ≠ true := by
  decide

/-- C7 (amended): calling the terminator on an already-exited process is
a no-op that reports failure, not success: for every process object whose
`poll()` shows the process has exited, `terminate_process_object`
performs no kill action and returns `false`, and for every name with no
matching row left in the process table, `terminate_process_by_name` kills
nothing and returns `false` (the caller `terminate_game_process` treats
the first `false` by falling back to name-based termination and ignores
its result, so cleanup still completes without raising). -/
theorem c7_terminator_exited_noop (c : Int) (tr wt : Bool)
    (table : List String) (name : String)
    (hnomatch : taskkillMatches table name = 0) :
    terminate_process_object
        { pollResult := some c, terminateRaises := tr, waitTimesOut := wt } =
      (false, []) ∧
    terminate_process_by_name table name = (false, 0) := by
  constructor
  · simp [terminate_process_object]
  · simp [terminate_process_by_name, hnomatch]

theorem c7_witness :
    taskkillMatches ["explorer.exe"] "WRFrontiers-Win64-Shipping.exe" = 0 ∧
    terminate_process_object
        { pollResult := some 1, terminateRaises := false, waitTimesOut := false } =
      (false, []) ∧
    terminate_process_by_name ["explorer.exe"] "WRFrontiers-Win64-Shipping.exe" =
      (false, 0) := by
  have h := c7_terminator_exited_noop 1 false false ["explorer.exe"]
    "WRFrontiers-Win64-Shipping.exe" (by decide)
  exact ⟨by decide, h.1, h.2⟩

/-! ### C8: the readiness settle loop -/

/-- The liveness re-check at index `i` sees the PID. -/
def aliveCheck (checks : Nat → Option (List Char)) (pid i : Nat) : Prop :=
  ∃ out, checks i = some out ∧ isInfixB (digitsOfNat pid) out = true

/-- The liveness re-check at index `i` no longer sees the PID. -/
def deadCheck (checks : Nat → Option (List Char)) (pid i : Nat) : Prop :=
  ∃ out, checks i = some out ∧ isInfixB (digitsOfNat pid) out = false

theorem readyLoop_ok (process_name : String) (pid : Nat)
    (checks : Nat → Option (List Char)) :
    ∀ k idx slept, (∀ i, i < k → aliveCheck checks pid (idx + i)) →
      readyLoop process_name pid checks k idx slept = (.ok pid, slept + 5 * k) := by
  intro k
  induction k with
  | zero => intro idx slept _; simp [readyLoop]
  | succ k ih =>
    intro idx slept h
    obtain ⟨out, hco, hinf⟩ := h 0 (Nat.succ_pos k)
    have hco' : checks idx = some out := by simpa using hco
    rw [readyLoop, hco']
    dsimp only
    rw [hinf, if_pos rfl]
    have harg : ∀ i, i < k → aliveCheck checks pid (idx + 1 + i) := by
      intro i hi
      have hx := h (i + 1) (by omega)
      have heq : idx + (i + 1) = idx + 1 + i := by omega
      rwa [heq] at hx
    rw [ih (idx + 1) (slept + 5) harg]
    simp only [Prod.mk.injEq, true_and]
    omega

theorem readyLoop_died (process_name : String) (pid : Nat)
    (checks : Nat → Option (List Char)) :
    ∀ j k idx slept, j < k → (∀ i, i < j → aliveCheck checks pid (idx + i)) →
      deadCheck checks pid (idx + j) →
      readyLoop process_name pid checks k idx slept =
        (.error (diedError process_name pid), slept + 5 * (j + 1)) := by
  intro j
  induction j with
  | zero =>
    intro k idx slept hjk _ hdead
    obtain ⟨out, hco, hinf⟩ := hdead
    cases k with
    | zero => omega
    | succ k =>
      have hco' : checks idx = some out := by simpa using hco
      rw [readyLoop, hco']
      dsimp only
      rw [hinf, if_neg Bool.false_ne_true]
  | succ j ih =>
    intro k idx slept hjk halive hdead
    cases k with
    | zero => omega
    | succ k =>
      obtain ⟨out, hco, hinf⟩ := halive 0 (Nat.succ_pos j)
      have hco' : checks idx = some out := by simpa using hco
      rw [readyLoop, hco']
      dsimp only
      rw [hinf, if_pos rfl]
      have halive' : ∀ i, i < j → aliveCheck checks pid (idx + 1 + i) := by
        intro i hi
        have hx := halive (i + 1) (by omega)
        have heq : idx + (i + 1) = idx + 1 + i := by omega
        rwa [heq] at hx
      have hdead' : deadCheck checks pid (idx + 1 + j) := by
        have heq : idx + (j + 1) = idx + 1 + j := by omega
        rwa [heq] at hdead
      rw [ih k (idx + 1) (slept + 5) (by omega) halive' hdead']
      simp only [Prod.mk.injEq, true_and]
      omega

/-- C8: after the waiter finds the PID, the readiness gate sleeps in
fixed 5-second sub-intervals and re-verifies liveness after each one.
When the PID stays visible through all checks it returns success having
slept exactly `initialization_time` seconds (the sub-intervals total the
settle duration whenever it is a multiple of 5, as at both call sites);
when the PID is first absent at check `j` it raises the
died-during-initialization error having slept only `5 * (j + 1)` seconds,
performing no further sleep for the remaining duration. -/
theorem c8_ready_gate_settles_and_fails_fast (process_name : String)
    (pid initialization_time : Nat)
    (listings : List (List (List Char))) (checks : Nat → Option (List Char))
    (hfind : wait_for_process_by_name process_name 60 listings = .ok pid)
    (hmul : initialization_time % 5 = 0) :
    ((∀ i, i < numChecks initialization_time → aliveCheck checks pid i) →
      wait_for_process_ready_for_injection process_name initialization_time
          listings checks = (.ok pid, initialization_time)) ∧
    (∀ j, j < numChecks initialization_time →
      (∀ i, i < j → aliveCheck checks pid i) → deadCheck checks pid j →
      wait_for_process_ready_for_injection process_name initialization_time
          listings checks =
        (.error (diedError process_name pid), 5 * (j + 1))) := by
  constructor
  · intro halive
    rw [wait_for_process_ready_for_injection, hfind]
    dsimp only
    rw [readyLoop_ok process_name pid checks (numChecks initialization_time) 0 0
      (by intro i hi; simpa using halive i hi)]
    have h5 : 5 * numChecks initialization_time = initialization_time := by
      unfold numChecks
      omega
    rw [Nat.zero_add, h5]
  · intro j hj halive hdead
    rw [wait_for_process_ready_for_injection, hfind]
    dsimp only
    rw [readyLoop_died process_name pid checks j (numChecks initialization_time)
      0 0 hj (by intro i hi; simpa using halive i hi) (by simpa using hdead)]
    rw [Nat.zero_add]

def c8checks : Nat → Option (List Char) :=
  fun i => if i = 0 then some "7".toList else some "gone".toList

theorem c8_witness :
    wait_for_process_ready_for_injection "g" 10 [["g 7 c".toList]] c8checks =
      (.error (diedError "g" 7), 10) := by
  have h := (c8_ready_gate_settles_and_fails_fast "g" 7 10 [["g 7 c".toList]]
    c8checks rfl rfl).2 1 (by decide)
    (by
      intro i hi
      have h0 : i = 0 := by omega
      subst h0
      exact ⟨"7".toList, rfl, rfl⟩)
    ⟨"gone".toList, rfl, rfl⟩
  have harith : (5 : Nat) * (1 + 1) = 10 := by norm_num
  rw [← harith]
  exact h

/-! ### C9: failure modes share the generic exception type -/

def c9opts : Options :=
  { output_mapper_file := "/out/WRF.usmap", force_get_mapper := false,
    steam_game_download_dir := "/steam", dumper7_output_dir := "/dump" }

def c9world : World :=
  { output_mapper_file_exists := false, shipping_exe_exists := true,
    dll_path := "/src/mapper/Dumper-7.dll", dll_exists := true,
    is_admin := true, dumperEntries := [] }

/-- A run whose launched process exits within the grace window. -/
def c9env : RunEnv :=
  { launch_ok := false, launch_exit_code := 1, listings := [],
    checks := fun _ => none, inject_reported := true, bundleWrites := [] }

def c9timeout : PyError := notFoundError "g" 60

def c9died : PyError := diedError "g" 7

def c9struct : PyError :=
  ⟨"Exception", "Invalid SDK directory structure: found 0 directories instead of 1"⟩

def c9launch : PyError :=
  ⟨"Exception", "Game process failed to start (exit code: 1)"⟩

/-- C9 counterexample: the four failure modes named by the claim — waiter
timeout, death during the readiness settle, structural locator error, and
launch failure — are all raised with the single generic `Exception` type,
so a caller cannot distinguish them by type. -/
theorem c9_counterexample :
    wait_for_process_by_name "g" 60 [] = .error c9timeout ∧
    (wait_for_process_ready_for_injection "g" 10 [["g 7 c".toList]]
        (fun _ => some "gone".toList)).1 = .error c9died ∧
    get_mapper_from_sdk "/dump" [] = .error c9struct ∧
    (mainRun c9opts c9world c9env).1 = .error c9launch ∧
    c9timeout.pyType = "Exception" ∧
    c9died.pyType = "Exception" ∧
    c9struct.pyType = "Exception" ∧
    c9launch.pyType = "Exception" :=
  ⟨rfl, rfl, rfl, rfl, rfl, rfl, rfl, rfl⟩

/-- C9 (amended): the pipeline failure modes are surfaced as values of
the one generic `Exception` type; they are inspectable and mutually
distinguishable only through their message text, whose four forms at
representative inputs are pairwise distinct. -/
theorem c9_failures_distinct_by_message_only :
    wait_for_process_by_name "g" 60 [] = .error c9timeout ∧
    (wait_for_process_ready_for_injection "g" 10 [["g 7 c".toList]]
        (fun _ => some "gone".toList)).1 = .error c9died ∧
    get_mapper_from_sdk "/dump" [] = .error c9struct ∧
    (mainRun c9opts c9world c9env).1 = .error c9launch ∧
    (c9timeout.pyType = c9died.pyType ∧ c9died.pyType = c9struct.pyType ∧
      c9struct.pyType = c9launch.pyType) ∧
    (c9timeout.msg ≠ c9died.msg ∧ c9timeout.msg ≠ c9struct.msg ∧
      c9timeout.msg ≠ c9launch.msg ∧ c9died.msg ≠ c9struct.msg ∧
      c9died.msg ≠ c9launch.msg ∧ c9struct.msg ≠ c9launch.msg) := by
  refine ⟨rfl, rfl, rfl, rfl, ⟨rfl, rfl, rfl⟩, ?_, ?_, ?_, ?_, ?_, ?_⟩ <;> decide

end WRFExporter
